import Mathlib

set_option autoImplicit false

/-!
Verification of the Digital Chronicler backend
(src/Digital_chronical_backend.py) against its specification.

The Python source is shallowly embedded below:

* `ChroniclerConfig` mirrors the `ChroniclerConfig` dataclass; the
  environment reads in its default field values are made explicit via the
  `defaultConfig` constructor taking the environment variable values as
  parameters.
* Python list indexing that may raise `IndexError` is embedded with
  `List.get?`, so `get_current_groq_token` returns `Option String`
  (`none` models a raised `IndexError`).
* The Groq chat model handle (`self.model`) is embedded as an optional
  adapter function from a prompt to `Except String GroqResponse`:
  `Except.error` models an exception raised by `invoke`.
* `datetime.datetime.now()` is nondeterministic input, threaded through
  the operations as an explicit parameter: an ISO timestamp string where
  the code stores `isoformat()`, and a rational number of seconds for the
  elapsed-time arithmetic in `get_stats`.
* Methods that mutate `self` are state transformers returning the new
  `DigitalChronicler`; methods that do not assign to `self` return the
  input state unchanged.
* The `try:/except:` boundary of the demo operations is embedded
  explicitly: the method body is an `Except`-valued computation and the
  boundary (`runCycleCatch`, `demoBoundary`) pattern matches on it,
  turning any error into the empty result the handler returns.
-/

/-- A response object returned by the Groq chat model; the code only
reads its `content` attribute. -/
structure GroqResponse where
  content : String
deriving Repr, DecidableEq

/-- The model adapter: wraps `ChatGroq.invoke`.  Given a prompt it either
returns a response or raises (`Except.error`). -/
def GroqAdapter : Type := String → Except String GroqResponse

/-- Embedding of the `ChroniclerConfig` dataclass.  All fields of the
Python dataclass are kept. -/
structure ChroniclerConfig where
  groq_api_tokens : List String
  current_token_index : Nat
  news_api_key : String
  serper_api_key : String
  primary_model : String
  backup_model : String
  topics_of_interest : List String
  writing_style : String
  article_length : String
  include_quotes : Bool
  include_analysis : Bool
  max_articles_to_fetch : Nat
  max_articles_to_generate : Nat
  request_timeout : Nat
  max_retries : Nat
  retry_delay : Nat
  output_directory : String
  save_source_data : Bool
  output_format : String
  direct_input : Bool
  input_title : String
  input_content : String
  input_topic : String
  memory_file : String
  memory_expiry_days : Nat
  reset_memory : Bool
  use_local_model : Bool
  enable_sentiment_analysis : Bool
  enable_topic_clustering : Bool
  enable_summarization : Bool
  enable_related_stories : Bool
  enable_image_extraction : Bool
  max_threads : Nat
  cache_timeout : Nat

/-- Default construction of `ChroniclerConfig`.  The dataclass defaults
read `GROQ_API_KEY`, `NEWS_API_KEY` and `SERPER_API_KEY` from the
environment (absent variables yield the empty string); those three reads
are the parameters. -/
def defaultConfig (groqEnv newsEnv serperEnv : String) : ChroniclerConfig :=
  { groq_api_tokens := [groqEnv]
    current_token_index := 0
    news_api_key := newsEnv
    serper_api_key := serperEnv
    primary_model := "llama-3.3-70b-versatile"
    backup_model := "mistral-saba-24b"
    topics_of_interest := ["technology", "science", "politics", "business"]
    writing_style := "literary"
    article_length := "short"
    include_quotes := true
    include_analysis := true
    max_articles_to_fetch := 5
    max_articles_to_generate := 2
    request_timeout := 30
    max_retries := 3
    retry_delay := 2
    output_directory := "generated_chronicles"
    save_source_data := true
    output_format := "markdown"
    direct_input := false
    input_title := ""
    input_content := ""
    input_topic := ""
    memory_file := "chronicler_memory.json"
    memory_expiry_days := 7
    reset_memory := false
    use_local_model := false
    enable_sentiment_analysis := true
    enable_topic_clustering := true
    enable_summarization := true
    enable_related_stories := true
    enable_image_extraction := false
    max_threads := 8
    cache_timeout := 3600 }

/-- Embedding of `ChroniclerConfig.get_current_groq_token`: returns the
empty string when the token list is empty, otherwise indexes the list at
the current index.  The result is `Option String`: `none` models the
`IndexError` Python would raise when the index is out of range. -/
def get_current_groq_token (c : ChroniclerConfig) : Option String :=
  if c.groq_api_tokens.isEmpty then some ""
  else c.groq_api_tokens.get? c.current_token_index

/-- The state change performed by `ChroniclerConfig.rotate_groq_token`:
when more than one token is configured the index advances by one modulo
the list length, otherwise the config is unchanged. -/
def rotateConfig (c : ChroniclerConfig) : ChroniclerConfig :=
  if 1 < c.groq_api_tokens.length then
    { c with current_token_index :=
        (c.current_token_index + 1) % c.groq_api_tokens.length }
  else c

/-- Embedding of `ChroniclerConfig.rotate_groq_token`: performs the
rotation and returns the (possibly new) current token. -/
def rotate_groq_token (c : ChroniclerConfig) :
    ChroniclerConfig × Option String :=
  (rotateConfig c, get_current_groq_token (rotateConfig c))

/-- The uniform article record produced by every generation operation.
The `search_query` key is present only in records built by
`generate_similar_articles`, hence `Option`. -/
structure ArticleRecord where
  generated_title : String
  generated_content : String
  topic : String
  source_name : String
  url : String
  generation_timestamp : String
  image_url : String
  search_query : Option String
deriving Repr, DecidableEq

/-- Embedding of the `DigitalChronicler` orchestrator state. -/
structure DigitalChronicler where
  config : ChroniclerConfig
  articles_generated : Nat
  articles_researched : Nat
  start_time : ℚ
  generated_articles : List ArticleRecord
  researched_stories : List ArticleRecord
  model : Option GroqAdapter

/-- Embedding of `DigitalChronicler.__init__`.  Counters start at zero,
the accumulation lists start empty, `start_time` records construction
time.  The model handle is set only when the current token is a
non-empty string; `groqConstruction` is the outcome of the guarded
`ChatGroq(...)` call (`none` models the constructor raising, in which
case the `except` branch leaves `self.model` as `None`). -/
def mkChronicler (groqEnv newsEnv serperEnv : String) (startSec : ℚ)
    (groqConstruction : Option GroqAdapter) : DigitalChronicler :=
  let cfg := defaultConfig groqEnv newsEnv serperEnv
  { config := cfg
    articles_generated := 0
    articles_researched := 0
    start_time := startSec
    generated_articles := []
    researched_stories := []
    model :=
      match get_current_groq_token cfg with
      | some tok => if tok = "" then none else groqConstruction
      | none => none }

/-- The sample article list built inside the `try` block of
`run_cycle`. -/
def runCycleSample (now : String) : List ArticleRecord :=
  [{ generated_title := "AI Revolution in News Generation"
     generated_content := "The Digital Chronicler represents a new era in automated journalism, where artificial intelligence transforms raw news data into compelling narratives. This innovative platform demonstrates the potential of AI to enhance rather than replace human journalism."
     topic := "technology"
     source_name := "Demo Source"
     url := "https://example.com"
     generation_timestamp := now
     image_url := ""
     search_query := none }]

/-- The `try` block of `run_cycle`: builds the sample list and
increments the generated counter by its length.  Every step is total, so
the body never produces an error. -/
def runCycleBody (c : DigitalChronicler) (now : String) :
    Except String (DigitalChronicler × List ArticleRecord) :=
  let sample := runCycleSample now
  Except.ok
    ({ c with articles_generated := c.articles_generated + sample.length },
      sample)

/-- The `except` boundary of `run_cycle`: an error is logged and turned
into an empty-list return with the state left as it was. -/
def runCycleCatch (c : DigitalChronicler)
    (body : Except String (DigitalChronicler × List ArticleRecord)) :
    DigitalChronicler × List ArticleRecord :=
  match body with
  | Except.ok r => r
  | Except.error _ => (c, [])

/-- Embedding of `DigitalChronicler.run_cycle`. -/
def run_cycle (c : DigitalChronicler) (now : String) :
    DigitalChronicler × List ArticleRecord :=
  runCycleCatch c (runCycleBody c now)

/-- The prompt f-string built by `process_direct_input` when a model is
configured. -/
def directInputPrompt (title topic content : String) : String :=
  "Transform this user input into a well-structured article:\n\nTitle: "
    ++ title ++ "\nTopic: " ++ topic ++ "\nContent: " ++ content
    ++ "\n\nCreate an engaging article with proper formatting and structure."

/-- Embedding of `DigitalChronicler.process_direct_input`.  The result
is the unchanged state, the returned record (`none` models the `return
None` of the `except` branch after an adapter exception), and the number
of adapter invocations made. -/
def process_direct_input (c : DigitalChronicler)
    (title topic content now : String) :
    DigitalChronicler × Option ArticleRecord × Nat :=
  match c.model with
  | none =>
    (c,
      some
        { generated_title := "Custom Article: " ++ title
          generated_content := "**" ++ title ++ "**\n\n" ++ content ++
            "\n\nThis article was created using the Digital Chronicler platform."
          topic := topic
          source_name := "Direct Input"
          url := ""
          generation_timestamp := now
          image_url := ""
          search_query := none },
      0)
  | some adapter =>
    match adapter (directInputPrompt title topic content) with
    | Except.ok response =>
      (c,
        some
          { generated_title := title
            generated_content := response.content
            topic := topic
            source_name := "Direct Input"
            url := ""
            generation_timestamp := now
            image_url := ""
            search_query := none },
        1)
    | Except.error _ => (c, none, 1)

/-- The demo record built inside the `try` block of
`generate_similar_articles`. -/
def similarRecord (article_name now : String) : ArticleRecord :=
  { generated_title := "Related Story: " ++ article_name ++ " Analysis"
    generated_content := "This article explores topics related to \x27"
      ++ article_name ++
      "\x27 and provides additional context and analysis on the subject matter."
    topic := "general"
    source_name := "Similar Articles Search"
    url := "https://example.com"
    generation_timestamp := now
    image_url := ""
    search_query := some article_name }

/-- The `try` block of `generate_similar_articles`: builds the singleton
demo list; every step is total. -/
def similarBody (article_name now : String) :
    Except String (List ArticleRecord) :=
  Except.ok [similarRecord article_name now]

/-- The `except` boundary of `generate_similar_articles`: an error is
logged and turned into an empty-list return. -/
def demoBoundary (body : Except String (List ArticleRecord)) :
    List ArticleRecord :=
  match body with
  | Except.ok l => l
  | Except.error _ => []

/-- Embedding of `DigitalChronicler.generate_similar_articles`.  The
method does not assign to `self`, so the state is returned unchanged. -/
def generate_similar_articles (c : DigitalChronicler)
    (article_name now : String) : DigitalChronicler × List ArticleRecord :=
  (c, demoBoundary (similarBody article_name now))

/-- The statistics snapshot returned by `get_stats`. -/
structure ChroniclerStats where
  articles_generated : Nat
  articles_researched : Nat
  articles_per_hour : ℚ
  run_time_hours : ℚ
  memory_stories : Nat
  memory_urls : Nat
  memory_titles : Nat
  topic_trends : List (String × Nat)
deriving Repr, DecidableEq

/-- Embedding of `DigitalChronicler.get_stats`.  `nowSec` is the current
time in seconds; `runtime_hours` is the elapsed time divided by 3600 and
the throughput divides by `max runtime_hours (1/100)`. -/
def get_stats (c : DigitalChronicler) (nowSec : ℚ) : ChroniclerStats :=
  let runtime_hours := (nowSec - c.start_time) / 3600
  { articles_generated := c.articles_generated
    articles_researched := c.articles_researched
    articles_per_hour := (c.articles_generated : ℚ) / max runtime_hours (1 / 100)
    run_time_hours := runtime_hours
    memory_stories := 0
    memory_urls := 0
    memory_titles := 0
    topic_trends := [("technology", 5), ("science", 3), ("politics", 2)] }

/-- One public generation operation of the orchestrator, with the
nondeterministic inputs (timestamps, user strings) it consumes. -/
inductive ChroniclerOp where
  | cycle (now : String)
  | direct (title topic content now : String)
  | similar (article_name now : String)

/-- Applying one operation to the orchestrator state. -/
def applyOp (c : DigitalChronicler) : ChroniclerOp → DigitalChronicler
  | ChroniclerOp.cycle now => (run_cycle c now).1
  | ChroniclerOp.direct t tp ct now => (process_direct_input c t tp ct now).1
  | ChroniclerOp.similar n now => (generate_similar_articles c n now).1

/-! Helper lemmas shared by the claim theorems. -/

lemma rotateConfig_tokens (c : ChroniclerConfig) :
    (rotateConfig c).groq_api_tokens = c.groq_api_tokens := by
  unfold rotateConfig
  split <;> rfl

lemma rotateConfig_iter_tokens (c : ChroniclerConfig) (k : Nat) :
    (rotateConfig^[k] c).groq_api_tokens = c.groq_api_tokens := by
  induction k with
  | zero => rfl
  | succ k ih => rw [Function.iterate_succ_apply', rotateConfig_tokens, ih]

lemma rotateConfig_index_of_lt (c : ChroniclerConfig)
    (h : 1 < c.groq_api_tokens.length) :
    (rotateConfig c).current_token_index =
      (c.current_token_index + 1) % c.groq_api_tokens.length := by
  unfold rotateConfig
  rw [if_pos h]

lemma rotateConfig_iter_index (c : ChroniclerConfig)
    (h2 : 1 < c.groq_api_tokens.length)
    (hidx : c.current_token_index < c.groq_api_tokens.length) :
    ∀ k, (rotateConfig^[k] c).current_token_index =
      (c.current_token_index + k) % c.groq_api_tokens.length := by
  intro k
  induction k with
  | zero => simpa using (Nat.mod_eq_of_lt hidx).symm
  | succ k ih =>
    have hlen : 1 < (rotateConfig^[k] c).groq_api_tokens.length := by
      rw [rotateConfig_iter_tokens]
      exact h2
    rw [Function.iterate_succ_apply', rotateConfig_index_of_lt _ hlen,
      rotateConfig_iter_tokens, ih, Nat.mod_add_mod, Nat.add_assoc]

lemma process_direct_input_state (c : DigitalChronicler)
    (title topic content now : String) :
    (process_direct_input c title topic content now).1 = c := by
  cases hm : c.model with
  | none => simp [process_direct_input, hm]
  | some adapter =>
    cases he : adapter (directInputPrompt title topic content) <;>
      simp [process_direct_input, hm, he]

lemma applyOp_researched (c : DigitalChronicler) (op : ChroniclerOp) :
    (applyOp c op).articles_researched = c.articles_researched := by
  cases op with
  | cycle now => rfl
  | direct t tp ct now =>
    show (process_direct_input c t tp ct now).1.articles_researched = _
    rw [process_direct_input_state]
  | similar n now => rfl

lemma foldl_applyOp_researched (ops : List ChroniclerOp) :
    ∀ c : DigitalChronicler,
      (ops.foldl applyOp c).articles_researched = c.articles_researched := by
  induction ops with
  | nil => intro c; rfl
  | cons op ops ih =>
    intro c
    rw [List.foldl_cons, ih, applyOp_researched]

/-- A chronicler constructed with no credential in the environment, so no
model adapter is configured. -/
def chronicler0 : DigitalChronicler := mkChronicler "" "" "" 0 none

/-- An adapter whose every invocation raises. -/
def failingAdapter : GroqAdapter := fun _ => Except.error "boom"

/-- A configuration holding two credentials. -/
def cfgTwo : ChroniclerConfig :=
  { defaultConfig "a" "" "" with groq_api_tokens := ["a", "b"] }

/-- A configuration holding no credentials at all. -/
def cfgEmpty : ChroniclerConfig :=
  { defaultConfig "" "" "" with groq_api_tokens := [] }

/-- C1 counterexample: with no adapter configured,
`process_direct_input("T", "general", "C")` produces a record whose
`topic` field is the callers topic argument `"general"`, not
`"Direct Input"`; only the `source_name` field is `"Direct Input"`. -/
theorem C1_counterexample :
    ((process_direct_input chronicler0 "T" "general" "C" "ts").2.1.map
        ArticleRecord.topic) = some "general" ∧
      "general" ≠ "Direct Input" := by
  constructor
  · rfl
  · decide

/-- C1 (amended): for every call to `process_direct_input` on an
orchestrator with no model adapter configured, the returned record has
its `source_name` field set to `"Direct Input"` and its `topic` field
set to the topic argument of the call (not to `"Direct Input"`). -/
theorem C1_direct_input_topic_source (c : DigitalChronicler)
    (title topic content now : String) (h : c.model = none) :
    ∃ r, (process_direct_input c title topic content now).2.1 = some r ∧
      r.topic = topic ∧ r.source_name = "Direct Input" := by
  simp only [process_direct_input, h]
  exact ⟨_, rfl, rfl, rfl⟩

/-- Witness for C1: the amended claim at a concrete no-adapter
orchestrator and concrete inputs. -/
theorem C1_direct_input_topic_source_witness :
    ∃ r, (process_direct_input chronicler0 "T" "general" "C" "ts").2.1 = some r ∧
      r.topic = "general" ∧ r.source_name = "Direct Input" :=
  C1_direct_input_topic_source chronicler0 "T" "general" "C" "ts" rfl

/-- C2: when a model adapter is configured and its invocation on the
constructed prompt raises, `process_direct_input` returns no record
(`None`) rather than a fallback record. -/
theorem C2_adapter_failure_returns_none (c : DigitalChronicler)
    (adapter : GroqAdapter) (title topic content now e : String)
    (hm : c.model = some adapter)
    (he : adapter (directInputPrompt title topic content) = Except.error e) :
    (process_direct_input c title topic content now).2.1 = none := by
  simp [process_direct_input, hm, he]

/-- Witness for C2: a concrete orchestrator whose adapter always raises
returns no record from `process_direct_input`. -/
theorem C2_adapter_failure_returns_none_witness :
    (process_direct_input (mkChronicler "k" "" "" 0 (some failingAdapter))
        "T" "g" "C" "ts").2.1 = none :=
  C2_adapter_failure_returns_none _ failingAdapter "T" "g" "C" "ts" "boom"
    rfl rfl

/-- C3: for a configuration with at least two credentials (and its index
in range, as every reachable configuration has), rotating as many times
as there are credentials restores the credential index, and therefore
the current credential; for a configuration with at most one credential,
a single `rotate_groq_token` leaves the configuration unchanged and
returns the unchanged current credential. -/
theorem C3_rotate_cycles (c : ChroniclerConfig) :
    (2 ≤ c.groq_api_tokens.length →
      c.current_token_index < c.groq_api_tokens.length →
      (rotateConfig^[c.groq_api_tokens.length] c).current_token_index =
          c.current_token_index ∧
        get_current_groq_token (rotateConfig^[c.groq_api_tokens.length] c) =
          get_current_groq_token c) ∧
    (c.groq_api_tokens.length ≤ 1 →
      rotate_groq_token c = (c, get_current_groq_token c)) := by
  constructor
  · intro h2 hidx
    have h1 : 1 < c.groq_api_tokens.length := h2
    have hindex :
        (rotateConfig^[c.groq_api_tokens.length] c).current_token_index =
          c.current_token_index := by
      rw [rotateConfig_iter_index c h1 hidx, Nat.add_mod_right,
        Nat.mod_eq_of_lt hidx]
    refine ⟨hindex, ?_⟩
    unfold get_current_groq_token
    rw [rotateConfig_iter_tokens, hindex]
  · intro hle
    have hnot : ¬ 1 < c.groq_api_tokens.length := by omega
    have hfix : rotateConfig c = c := by
      unfold rotateConfig
      rw [if_neg hnot]
    unfold rotate_groq_token
    rw [hfix]

/-- Witness for C3: both parts at concrete configurations, a two-token
configuration for the cycle part and the default one-token configuration
for the no-op part. -/
theorem C3_rotate_cycles_witness :
    ((rotateConfig^[cfgTwo.groq_api_tokens.length] cfgTwo).current_token_index =
        cfgTwo.current_token_index ∧
      get_current_groq_token (rotateConfig^[cfgTwo.groq_api_tokens.length] cfgTwo) =
        get_current_groq_token cfgTwo) ∧
    rotate_groq_token (defaultConfig "a" "" "") =
      (defaultConfig "a" "" "", get_current_groq_token (defaultConfig "a" "" "")) :=
  ⟨(C3_rotate_cycles cfgTwo).1 (by decide) (by decide),
    (C3_rotate_cycles (defaultConfig "a" "" "")).2 (by decide)⟩

/-- C4: every call to `run_cycle` returns a non-empty list and
increments `articles_generated` by exactly its length, and two
consecutive calls accumulate the counter additively. -/
theorem C4_run_cycle_counter (c : DigitalChronicler) (now1 now2 : String) :
    (run_cycle c now1).2 ≠ [] ∧
    (run_cycle c now1).1.articles_generated =
      c.articles_generated + (run_cycle c now1).2.length ∧
    (run_cycle (run_cycle c now1).1 now2).1.articles_generated =
      c.articles_generated + (run_cycle c now1).2.length +
        (run_cycle (run_cycle c now1).1 now2).2.length := by
  refine ⟨?_, rfl, rfl⟩
  simp [run_cycle, runCycleCatch, runCycleBody, runCycleSample]

/-- C5: `get_stats` computes `articles_per_hour` as the generated count
divided by `max runtime_hours (1/100)`; the divisor is at least `1/100`,
hence strictly positive, so the division is guarded even when the
elapsed time is zero. -/
theorem C5_stats_guarded_division (c : DigitalChronicler) (nowSec : ℚ) :
    (get_stats c nowSec).articles_per_hour =
      (c.articles_generated : ℚ) /
        max ((nowSec - c.start_time) / 3600) (1 / 100) ∧
    (1 : ℚ) / 100 ≤ max ((nowSec - c.start_time) / 3600) (1 / 100) ∧
    (0 : ℚ) < max ((nowSec - c.start_time) / 3600) (1 / 100) := by
  refine ⟨rfl, le_max_right _ _, lt_of_lt_of_le (by norm_num) (le_max_right _ _)⟩

/-- C6: with no model adapter configured, `process_direct_input` returns
a record whose body contains both the title and the content as
substrings and whose `source_name` is exactly `"Direct Input"`, making
zero adapter invocations. -/
theorem C6_direct_input_fallback (c : DigitalChronicler)
    (title topic content now : String) (h : c.model = none) :
    ∃ r, (process_direct_input c title topic content now).2.1 = some r ∧
      (∃ a b, r.generated_content = a ++ title ++ b) ∧
      (∃ a b, r.generated_content = a ++ content ++ b) ∧
      r.source_name = "Direct Input" ∧
      (process_direct_input c title topic content now).2.2 = 0 := by
  obtain ⟨cfg, ag, ar, st, ga, rs, m⟩ := c
  cases h
  exact ⟨_, rfl,
    ⟨"**", "**\n\n" ++ content ++
        "\n\nThis article was created using the Digital Chronicler platform.",
      by simp [String.append_assoc]⟩,
    ⟨"**" ++ title ++ "**\n\n",
      "\n\nThis article was created using the Digital Chronicler platform.",
      rfl⟩,
    rfl, rfl⟩

/-- Witness for C6: the fallback record at a concrete no-adapter
orchestrator with title `"T"` and content `"C"`. -/
theorem C6_direct_input_fallback_witness :
    ∃ r, (process_direct_input chronicler0 "T" "general" "C" "ts").2.1 = some r ∧
      (∃ a b, r.generated_content = a ++ "T" ++ b) ∧
      (∃ a b, r.generated_content = a ++ "C" ++ b) ∧
      r.source_name = "Direct Input" ∧
      (process_direct_input chronicler0 "T" "general" "C" "ts").2.2 = 0 :=
  C6_direct_input_fallback chronicler0 "T" "general" "C" "ts" rfl

/-- C7: every record returned by `generate_similar_articles` embeds the
seed label verbatim in its title and in its body, and carries it exactly
in its `search_query` field. -/
theorem C7_similar_embed_seed (c : DigitalChronicler) (seed now : String)
    (r : ArticleRecord)
    (hr : r ∈ (generate_similar_articles c seed now).2) :
    (∃ a b, r.generated_title = a ++ seed ++ b) ∧
    (∃ a b, r.generated_content = a ++ seed ++ b) ∧
    r.search_query = some seed := by
  rw [show (generate_similar_articles c seed now).2 =
      [similarRecord seed now] from rfl, List.mem_singleton] at hr
  subst hr
  exact ⟨⟨"Related Story: ", " Analysis", rfl⟩,
    ⟨"This article explores topics related to \x27",
      "\x27 and provides additional context and analysis on the subject matter.",
      rfl⟩,
    rfl⟩

/-- Witness for C7: the record returned for the seed
`"Quantum Computing"` embeds the seed in title and body and carries it
in `search_query`. -/
theorem C7_similar_embed_seed_witness :
    similarRecord "Quantum Computing" "ts" ∈
      (generate_similar_articles chronicler0 "Quantum Computing" "ts").2 ∧
    ((∃ a b, (similarRecord "Quantum Computing" "ts").generated_title =
        a ++ "Quantum Computing" ++ b) ∧
      (∃ a b, (similarRecord "Quantum Computing" "ts").generated_content =
        a ++ "Quantum Computing" ++ b) ∧
      (similarRecord "Quantum Computing" "ts").search_query =
        some "Quantum Computing") :=
  ⟨List.mem_singleton.mpr rfl,
    C7_similar_embed_seed chronicler0 "Quantum Computing" "ts" _
      (List.mem_singleton.mpr rfl)⟩

/-- C8: on a configuration with an empty credential list,
`get_current_groq_token` returns the empty string and never raises: the
indexing branch that could raise is not reached (the result is `some`,
not `none`). -/
theorem C8_empty_tokens_get_current (c : ChroniclerConfig)
    (h : c.groq_api_tokens = []) :
    get_current_groq_token c = some "" := by
  unfold get_current_groq_token
  rw [h]
  rfl

/-- Witness for C8: a concrete configuration with an empty credential
list. -/
theorem C8_empty_tokens_get_current_witness :
    get_current_groq_token cfgEmpty = some "" :=
  C8_empty_tokens_get_current cfgEmpty rfl

/-- C9: the demo operations never raise past their own boundary: they
are total functions built by applying the catch boundary to the method
body, and the boundary converts any internal error into an empty-list
return (with the state untouched for `run_cycle`). -/
theorem C9_demo_ops_never_raise :
    (∀ (c : DigitalChronicler) (e : String),
      runCycleCatch c (Except.error e) = (c, [])) ∧
    (∀ e : String, demoBoundary (Except.error e) = []) ∧
    (∀ (c : DigitalChronicler) (now : String),
      run_cycle c now = runCycleCatch c (runCycleBody c now)) ∧
    (∀ (c : DigitalChronicler) (seed now : String),
      (generate_similar_articles c seed now).2 =
        demoBoundary (similarBody seed now)) :=
  ⟨fun _ _ => rfl, fun _ => rfl, fun _ _ => rfl, fun _ _ _ => rfl⟩

/-- C10: `process_direct_input` and `generate_similar_articles` leave
the orchestrator state entirely unchanged; `run_cycle` leaves
`articles_researched` unchanged; hence after any sequence of operations
from construction `articles_researched` is still zero and `get_stats`
reports a researched count of zero. -/
theorem C10_frame_researched_zero :
    (∀ (c : DigitalChronicler) (title topic content now : String),
      (process_direct_input c title topic content now).1 = c) ∧
    (∀ (c : DigitalChronicler) (seed now : String),
      (generate_similar_articles c seed now).1 = c) ∧
    (∀ (c : DigitalChronicler) (now : String),
      (run_cycle c now).1.articles_researched = c.articles_researched) ∧
    (∀ (g n s : String) (start : ℚ) (model : Option GroqAdapter)
        (ops : List ChroniclerOp),
      (ops.foldl applyOp (mkChronicler g n s start model)).articles_researched
        = 0) ∧
    (∀ (g n s : String) (start : ℚ) (model : Option GroqAdapter)
        (ops : List ChroniclerOp) (nowSec : ℚ),
      (get_stats (ops.foldl applyOp (mkChronicler g n s start model))
          nowSec).articles_researched = 0) := by
  refine ⟨process_direct_input_state, fun _ _ _ => rfl, fun _ _ => rfl,
    fun g n s start model ops => ?_, fun g n s start model ops nowSec => ?_⟩
  · rw [foldl_applyOp_researched]
    rfl
  · show (ops.foldl applyOp (mkChronicler g n s start model)).articles_researched = 0
    rw [foldl_applyOp_researched]
    rfl
